import Mathlib

/-!
Verification of the ThreatRAG engine (src/rag_engine.py) against its
natural-language specification.

The Python source is shallowly embedded: pure string logic is translated
directly to Lean functions; filesystem and external-service effects
(directory listing, prompt files, the Chroma vector store, the Ollama
generation client) are made explicit as function parameters or Option
values.  External library behavior that is not part of the repository
(the Chroma store, the langchain splitter) is modelled from the
specification where a claim depends on it, and each such definition says
so in its doc comment.
-/

/-! ## Basic string utilities mirroring the Python primitives used -/

/-- The opening brace character, written by code point. -/
def lbrace : Char := Char.ofNat 123

/-- The closing brace character, written by code point. -/
def rbrace : Char := Char.ofNat 125

/-- Embedding of the Python lower() call as used on the ASCII keyword
text in detect_mode: per-character ASCII lowercasing. -/
def pyLower (s : String) : String := String.mk (s.data.map Char.toLower)

/-- Characters stripped by the Python strip() call: ASCII whitespace. -/
def isStripSpace (c : Char) : Bool :=
  c == ' ' || c == '\t' || c == '\n' || c == '\r' ||
  c == Char.ofNat 11 || c == Char.ofNat 12

/-- Strip leading and trailing whitespace from a character list. -/
def stripList (l : List Char) : List Char :=
  ((l.dropWhile isStripSpace).reverse.dropWhile isStripSpace).reverse

/-- Embedding of the Python strip() method. -/
def pyStrip (s : String) : String := String.mk (stripList s.data)

/-- Substring occurrence on character lists: the Python infix operator
in, as in the detect_mode keyword tests. -/
def listOccurs (needle : List Char) : List Char → Bool
  | [] => needle.isPrefixOf []
  | c :: t => needle.isPrefixOf (c :: t) || listOccurs needle t

/-- Substring occurrence on strings: k occursIn t embeds the Python
test k in t. -/
def occursIn (needle hay : String) : Bool := listOccurs needle.data hay.data

/-- Splitting a character list on spaces, used only to state that a
text contains no keyword as a whitespace-separated word. -/
def splitOnSpace : List Char → List (List Char)
  | [] => [[]]
  | c :: t =>
    let r := splitOnSpace t
    if c == ' ' then [] :: r
    else
      match r with
      | [] => [[c]]
      | w :: ws => (c :: w) :: ws

/-- The whitespace-separated words of a string. -/
def wordsOf (s : String) : List String := (splitOnSpace s.data).map String.mk

/-! ## Mode detection (source lines 75 to 93) -/

/-- The IR keyword list of detect_mode, copied from the source. -/
def ir_keys : List String :=
  ["failed login", "bruteforce", "connection attempt", "nc -e",
   "/tmp/", "reverse shell", "outbound traffic", "unauthorized"]

/-- The Threat-Intel keyword list of detect_mode, copied from the source. -/
def ti_keys : List String :=
  ["apt", "malware", "ttp", "campaign", "mitre", "threat actor",
   "phishing", "malicious document", "c2"]

/-- Embedding of ThreatRAG.detect_mode: lower-case the text, return IR
if any IR keyword occurs as a substring, else Threat Intel if any
Threat-Intel keyword occurs, else Hybrid. -/
def detect_mode (text : String) : String :=
  let t := pyLower text
  if ir_keys.any (fun k => occursIn k t) then "IR"
  else if ti_keys.any (fun k => occursIn k t) then "Threat Intel"
  else "Hybrid"

/-- Claim C4: if any IR keyword occurs in the lower-cased text, the
result is IR, regardless of Threat-Intel keyword occurrences. -/
theorem c4_ir_precedence (text : String)
    (h : ir_keys.any (fun k => occursIn k (pyLower text)) = true) :
    detect_mode text = "IR" := by
  simp [detect_mode, h]

/-- Witness for C4 at the example from the specification, an input that
contains both IR and Threat-Intel keywords. -/
theorem c4_ir_precedence_witness :
    detect_mode "apt malware dropped, also nc -e reverse shell detected" = "IR" :=
  c4_ir_precedence "apt malware dropped, also nc -e reverse shell detected" (by decide)

/-- Claim C5: if no IR keyword and no Threat-Intel keyword occurs in
the lower-cased text, the result is Hybrid.  The function is total, so
it never fails; the empty string satisfies the hypotheses. -/
theorem c5_no_keywords_hybrid (text : String)
    (h1 : ir_keys.any (fun k => occursIn k (pyLower text)) = false)
    (h2 : ti_keys.any (fun k => occursIn k (pyLower text)) = false) :
    detect_mode text = "Hybrid" := by
  simp [detect_mode, h1, h2]

/-- Witness for C5 at the keyword-free example from the specification. -/
theorem c5_no_keywords_hybrid_witness :
    detect_mode "server uptime nominal" = "Hybrid" :=
  c5_no_keywords_hybrid "server uptime nominal" (by decide) (by decide)

/-- Claim C10: keyword matching is substring containment, not word
membership.  The input contains no keyword as a whitespace-separated
word (and no IR keyword at all), yet the substring apt inside the word
laptop makes detect_mode return Threat Intel. -/
theorem c10_substring_not_word :
    detect_mode "my laptop is broken" = "Threat Intel"
    ∧ ir_keys.any (fun k => occursIn k (pyLower "my laptop is broken")) = false
    ∧ (wordsOf (pyLower "my laptop is broken")).all
        (fun w => (ir_keys ++ ti_keys).all (fun k => !(w == k))) = true
    ∧ occursIn "apt" (pyLower "my laptop is broken") = true := by
  refine ⟨by decide, by decide, by decide, by decide⟩

/-! ## JSON values, the json module, and extract_json (source lines 120 to 129) -/

/-- JSON values as produced by the Python json module.  Numeric
literals are kept verbatim as their source text, so no floating-point
semantics is assumed anywhere. -/
inductive Json where
  | null : Json
  | bool : Bool → Json
  | num : String → Json
  | str : String → Json
  | arr : List Json → Json
  | obj : List (String × Json) → Json

/-- JSON whitespace accepted between tokens. -/
def isJsonWs (c : Char) : Bool :=
  c == ' ' || c == '\t' || c == '\n' || c == '\r'

/-- Skip JSON whitespace. -/
def skipWs (cs : List Char) : List Char := cs.dropWhile isJsonWs

/-- Value of a hexadecimal digit. -/
def hexVal (c : Char) : Option Nat :=
  if '0' ≤ c ∧ c ≤ '9' then some (c.toNat - '0'.toNat)
  else if 'a' ≤ c ∧ c ≤ 'f' then some (c.toNat - 'a'.toNat + 10)
  else if 'A' ≤ c ∧ c ≤ 'F' then some (c.toNat - 'A'.toNat + 10)
  else none

/-- Single-character JSON string escapes. -/
def escMap (e : Char) : Option Char :=
  if e == '"' then some '"'
  else if e == '\\' then some '\\'
  else if e == '/' then some '/'
  else if e == 'n' then some '\n'
  else if e == 't' then some '\t'
  else if e == 'r' then some '\r'
  else if e == 'b' then some (Char.ofNat 8)
  else if e == 'f' then some (Char.ofNat 12)
  else none

/-- Parse the body of a JSON string after its opening quote, returning
the decoded characters and the remaining input. -/
def parseStringBody : List Char → Option (List Char × List Char)
  | [] => none
  | c :: rest =>
    if c == '"' then some ([], rest)
    else if c == '\\' then
      match rest with
      | [] => none
      | e :: rest2 =>
        if e == 'u' then
          match rest2 with
          | h1 :: h2 :: h3 :: h4 :: rest3 =>
            match hexVal h1, hexVal h2, hexVal h3, hexVal h4 with
            | some a, some b, some c3, some d =>
              match parseStringBody rest3 with
              | some (s, rem) => some (Char.ofNat (((a * 16 + b) * 16 + c3) * 16 + d) :: s, rem)
              | none => none
            | _, _, _, _ => none
          | _ => none
        else
          match escMap e with
          | some ch =>
            match parseStringBody rest2 with
            | some (s, rem) => some (ch :: s, rem)
            | none => none
          | none => none
    else
      match parseStringBody rest with
      | some (s, rem) => some (c :: s, rem)
      | none => none

/-- Take leading decimal digits. -/
def takeDigits (cs : List Char) : List Char × List Char :=
  (cs.takeWhile Char.isDigit, cs.dropWhile Char.isDigit)

/-- Parse the integer part of a JSON number: a zero, or a nonzero
digit followed by digits. -/
def parseIntPart (cs : List Char) : Option (List Char × List Char) :=
  match cs with
  | [] => none
  | c :: rest =>
    if c == '0' then some (['0'], rest)
    else if c.isDigit then
      let (ds, rem) := takeDigits rest
      some (c :: ds, rem)
    else none

/-- Parse a JSON numeric literal, keeping its text. -/
def parseNumber (cs : List Char) : Option (List Char × List Char) :=
  let (sign, cs1) :=
    match cs with
    | '-' :: r => (['-'], r)
    | _ => (([] : List Char), cs)
  match parseIntPart cs1 with
  | none => none
  | some (ip, cs2) =>
    let step2 : Option (List Char × List Char) :=
      match cs2 with
      | '.' :: r =>
        let (ds, rem) := takeDigits r
        if ds.isEmpty then none else some (ip ++ '.' :: ds, rem)
      | _ => some (ip, cs2)
    match step2 with
    | none => none
    | some (m, cs3) =>
      match cs3 with
      | c :: r =>
        if c == 'e' || c == 'E' then
          let (sgn2, r2) :=
            match r with
            | '+' :: rr => (['+'], rr)
            | '-' :: rr => (['-'], rr)
            | _ => (([] : List Char), r)
          let (ds, rem) := takeDigits r2
          if ds.isEmpty then none else some (sign ++ m ++ c :: sgn2 ++ ds, rem)
        else some (sign ++ m, cs3)
      | [] => some (sign ++ m, [])

/-- Insert a key-value pair with Python dict semantics: a repeated key
keeps its first position and takes the last value. -/
def insertKey (kvs : List (String × Json)) (k : String) (v : Json) : List (String × Json) :=
  if kvs.any (fun p => p.1 == k) then
    kvs.map (fun p => if p.1 == k then (k, v) else p)
  else kvs ++ [(k, v)]

/-- Parser control: parse one value, or the items of an array, or the
members of an object. -/
inductive PTask where
  | value : PTask
  | arrItems : List Json → PTask
  | objItems : List (String × Json) → PTask

/-- Fuel-indexed recursive-descent JSON parser embedding json.loads.
The fuel only bounds recursion depth; loads supplies enough for any
input it is given. -/
def parseStep : Nat → PTask → List Char → Option (Json × List Char)
  | 0, _, _ => none
  | fuel + 1, PTask.value, cs0 =>
    match skipWs cs0 with
    | [] => none
    | c :: rest =>
      if c == '"' then
        match parseStringBody rest with
        | some (s, rem) => some (Json.str (String.mk s), rem)
        | none => none
      else if c == lbrace then
        match skipWs rest with
        | d :: rest2 =>
          if d == rbrace then some (Json.obj [], rest2)
          else parseStep fuel (PTask.objItems []) rest
        | [] => none
      else if c == '[' then
        match skipWs rest with
        | d :: rest2 =>
          if d == ']' then some (Json.arr [], rest2)
          else parseStep fuel (PTask.arrItems []) rest
        | [] => none
      else if c == 't' then
        match rest with
        | 'r' :: 'u' :: 'e' :: r => some (Json.bool true, r)
        | _ => none
      else if c == 'f' then
        match rest with
        | 'a' :: 'l' :: 's' :: 'e' :: r => some (Json.bool false, r)
        | _ => none
      else if c == 'n' then
        match rest with
        | 'u' :: 'l' :: 'l' :: r => some (Json.null, r)
        | _ => none
      else
        match parseNumber (c :: rest) with
        | some (lit, rem) => some (Json.num (String.mk lit), rem)
        | none => none
  | fuel + 1, PTask.arrItems acc, cs =>
    match parseStep fuel PTask.value cs with
    | none => none
    | some (v, rem) =>
      match skipWs rem with
      | [] => none
      | d :: rem2 =>
        if d == ',' then parseStep fuel (PTask.arrItems (acc ++ [v])) rem2
        else if d == ']' then some (Json.arr (acc ++ [v]), rem2)
        else none
  | fuel + 1, PTask.objItems acc, cs =>
    match skipWs cs with
    | [] => none
    | q :: rest =>
      if q == '"' then
        match parseStringBody rest with
        | none => none
        | some (k, rem) =>
          match skipWs rem with
          | ':' :: rem2 =>
            match parseStep fuel PTask.value rem2 with
            | none => none
            | some (v, rem3) =>
              let acc2 := insertKey acc (String.mk k) v
              match skipWs rem3 with
              | [] => none
              | d :: rem4 =>
                if d == ',' then parseStep fuel (PTask.objItems acc2) rem4
                else if d == rbrace then some (Json.obj acc2, rem4)
                else none
          | _ => none
      else none

/-- Embedding of json.loads: parse a complete JSON document; trailing
content other than whitespace is an error. -/
def pyJsonLoads (s : String) : Option Json :=
  match parseStep (2 * s.data.length + 2) PTask.value s.data with
  | some (j, rem) => if (skipWs rem).isEmpty then some j else none
  | none => none

/-! ## Serialization embedding json.dumps with indent 2 -/

/-- Lower-case hexadecimal digit character. -/
def hexDigitChar (n : Nat) : Char :=
  if n < 10 then Char.ofNat (48 + n) else Char.ofNat (87 + n)

/-- Four hexadecimal digits of a code point. -/
def hex4 (n : Nat) : List Char :=
  [hexDigitChar (n / 4096 % 16), hexDigitChar (n / 256 % 16),
   hexDigitChar (n / 16 % 16), hexDigitChar (n % 16)]

/-- Escape one character the way json.dumps does with ensure ascii. -/
def escChar (c : Char) : List Char :=
  if c == '"' then ['\\', '"']
  else if c == '\\' then ['\\', '\\']
  else if c == '\n' then ['\\', 'n']
  else if c == '\r' then ['\\', 'r']
  else if c == '\t' then ['\\', 't']
  else if c == Char.ofNat 8 then ['\\', 'b']
  else if c == Char.ofNat 12 then ['\\', 'f']
  else if c.toNat < 32 || c.toNat > 126 then '\\' :: 'u' :: hex4 c.toNat
  else [c]

/-- Quote and escape a string for JSON output. -/
def quoteStr (s : String) : String :=
  "\"" ++ String.mk ((s.data.map escChar).flatten) ++ "\""

/-- Indentation padding. -/
def pad (n : Nat) : String := String.mk (List.replicate n ' ')

mutual

/-- Serialize a value at the given indentation, following the layout
of json.dumps with indent 2. -/
def dumpVal : Nat → Json → String
  | _, Json.null => "null"
  | _, Json.bool true => "true"
  | _, Json.bool false => "false"
  | _, Json.num lit => lit
  | _, Json.str s => quoteStr s
  | _, Json.arr [] => "[]"
  | ind, Json.arr (x :: xs) =>
    "[\n" ++ dumpItems (ind + 2) (x :: xs) ++ "\n" ++ pad ind ++ "]"
  | _, Json.obj [] => "\x7b\x7d"
  | ind, Json.obj (p :: ps) =>
    "\x7b\n" ++ dumpMembers (ind + 2) (p :: ps) ++ "\n" ++ pad ind ++ "\x7d"

/-- Serialize array items, one per line. -/
def dumpItems : Nat → List Json → String
  | _, [] => ""
  | ind, [x] => pad ind ++ dumpVal ind x
  | ind, x :: y :: xs =>
    pad ind ++ dumpVal ind x ++ ",\n" ++ dumpItems ind (y :: xs)

/-- Serialize object members, one per line. -/
def dumpMembers : Nat → List (String × Json) → String
  | _, [] => ""
  | ind, [(k, v)] => pad ind ++ quoteStr k ++ ": " ++ dumpVal ind v
  | ind, (k, v) :: q :: ps =>
    pad ind ++ quoteStr k ++ ": " ++ dumpVal ind v ++ ",\n" ++ dumpMembers ind (q :: ps)

end

/-- Embedding of the json.dumps call with indent 2 used by query. -/
def pyDumps (j : Json) : String := dumpVal 0 j

/-! ## extract_json and the response post-processing of query -/

/-- Span matched by the greedy regex of extract_json: from the first
opening brace to the last closing brace, when the latter comes after
the former. -/
def braceSpan (cs : List Char) : Option (List Char) :=
  let fromBrace := cs.dropWhile (fun c => !(c == lbrace))
  let span := (fromBrace.reverse.dropWhile (fun c => !(c == rbrace))).reverse
  if 2 ≤ span.length then some span else none

/-- Embedding of ThreatRAG.extract_json (source lines 120 to 129):
locate the greedy brace span, strip it, and parse it with json.loads;
any failure yields none. -/
def extract_json (text : String) : Option Json :=
  match braceSpan text.data with
  | none => none
  | some span => pyJsonLoads (pyStrip (String.mk span))

/-- Embedding of the response post-processing of ThreatRAG.query
(source lines 200 to 206): when extraction succeeds the parsed object
is re-serialized with json.dumps indent 2 and returned; otherwise the
raw response is returned unchanged.  Both branches return a plain
string. -/
def respond (response : String) : String :=
  match extract_json response with
  | some parsed => pyDumps parsed
  | none => response

/-! ## Lemmas about substring and brace-span computations -/

/-- A list is a prefix of itself followed by anything. -/
theorem isPrefixOf_append_self (a b : List Char) : a.isPrefixOf (a ++ b) = true := by
  induction a with
  | nil => simp [List.isPrefixOf]
  | cons c t ih => simp [List.isPrefixOf, ih]

/-- A prefix occurs as a substring. -/
theorem listOccurs_of_isPrefixOf (needle l : List Char)
    (h : needle.isPrefixOf l = true) : listOccurs needle l = true := by
  cases l with
  | nil => simpa [listOccurs] using h
  | cons c t => simp [listOccurs, h]

/-- Occurrence in the right part of an append. -/
theorem listOccurs_append_right (needle l1 l2 : List Char)
    (h : listOccurs needle l2 = true) : listOccurs needle (l1 ++ l2) = true := by
  induction l1 with
  | nil => simpa using h
  | cons c t ih => simp [listOccurs, ih]

/-- A needle occurs in any list that embeds it between two others. -/
theorem listOccurs_sandwich (needle l1 l2 : List Char) :
    listOccurs needle (l1 ++ (needle ++ l2)) = true :=
  listOccurs_append_right needle l1 (needle ++ l2)
    (listOccurs_of_isPrefixOf needle (needle ++ l2) (isPrefixOf_append_self needle l2))

/-- Appending two strings appends their character data. -/
theorem data_append (a b : String) : (a ++ b).data = a.data ++ b.data := by
  cases a
  cases b
  rfl

/-- Dropping while a predicate holds skips a block on which it holds
everywhere. -/
theorem dropWhile_append_of_all {p : Char → Bool} (pre rest : List Char)
    (h : ∀ c ∈ pre, p c = true) : (pre ++ rest).dropWhile p = rest.dropWhile p := by
  induction pre with
  | nil => rfl
  | cons c t ih =>
    have hc : p c = true := h c (by simp)
    simp only [List.cons_append, List.dropWhile_cons, hc, if_true]
    exact ih (fun d hd => h d (by simp [hd]))

/-- The greedy brace span of prose, a braced body, and prose with no
opening brace before the body and no closing brace after it is exactly
the braced body. -/
theorem braceSpan_sandwich (pre mid post : List Char)
    (hpre : lbrace ∉ pre) (hpost : rbrace ∉ post) :
    braceSpan (pre ++ (lbrace :: (mid ++ [rbrace])) ++ post)
      = some (lbrace :: (mid ++ [rbrace])) := by
  have h1 : (pre ++ (lbrace :: (mid ++ [rbrace])) ++ post).dropWhile (fun c => !(c == lbrace))
      = lbrace :: (mid ++ [rbrace] ++ post) := by
    rw [List.append_assoc]
    rw [dropWhile_append_of_all pre _ (fun c hc => by
      simp only [Bool.not_eq_true']
      exact beq_eq_false_iff_ne.mpr (fun e => hpre (e ▸ hc)))]
    simp [List.dropWhile_cons, List.append_assoc]
  have h2 : (lbrace :: (mid ++ [rbrace] ++ post)).reverse.dropWhile (fun c => !(c == rbrace))
      = rbrace :: (mid.reverse ++ [lbrace]) := by
    have hrev : (lbrace :: (mid ++ [rbrace] ++ post)).reverse
        = post.reverse ++ (rbrace :: (mid.reverse ++ [lbrace])) := by
      simp [List.reverse_cons, List.reverse_append, List.append_assoc]
    rw [hrev]
    rw [dropWhile_append_of_all post.reverse _ (fun c hc => by
      simp only [Bool.not_eq_true']
      exact beq_eq_false_iff_ne.mpr
        (fun e => hpost (e ▸ (List.mem_reverse.mp hc))))]
    simp [List.dropWhile_cons]
  have h3 : (rbrace :: (mid.reverse ++ [lbrace])).reverse
      = lbrace :: (mid ++ [rbrace]) := by
    simp [List.reverse_cons, List.reverse_append]
  unfold braceSpan
  rw [h1]
  show (if 2 ≤ (((lbrace :: (mid ++ [rbrace] ++ post)).reverse.dropWhile
          (fun c => !(c == rbrace))).reverse).length
      then some (((lbrace :: (mid ++ [rbrace] ++ post)).reverse.dropWhile
          (fun c => !(c == rbrace))).reverse)
      else none) = some (lbrace :: (mid ++ [rbrace]))
  rw [h2, h3]
  have hlen : 2 ≤ (lbrace :: (mid ++ [rbrace])).length := by simp
  simp [hlen]

/-- Stripping whitespace leaves a braced body unchanged. -/
theorem stripList_brace (mid : List Char) :
    stripList (lbrace :: (mid ++ [rbrace])) = lbrace :: (mid ++ [rbrace]) := by
  have hl : isStripSpace lbrace = false := by decide
  have hr : isStripSpace rbrace = false := by decide
  have h1 : List.dropWhile isStripSpace (lbrace :: (mid ++ [rbrace]))
      = lbrace :: (mid ++ [rbrace]) := by
    rw [List.dropWhile_cons, hl]
    simp
  have hrev : (lbrace :: (mid ++ [rbrace])).reverse
      = rbrace :: (mid.reverse ++ [lbrace]) := by
    simp [List.reverse_cons, List.reverse_append]
  have h2 : List.dropWhile isStripSpace (rbrace :: (mid.reverse ++ [lbrace]))
      = rbrace :: (mid.reverse ++ [lbrace]) := by
    rw [List.dropWhile_cons, hr]
    simp
  unfold stripList
  rw [h1, hrev, h2]
  simp [List.reverse_cons, List.reverse_append]

/-! ## Claims C6 and C7 -/

/-- Counterexample to claim C6 as stated: the raw output holds a
well-formed JSON object surrounded by prose, but because the prose in
front of the object contains an opening brace, the greedy brace span
covers the prose too, parsing fails, and extraction returns none
instead of the embedded object (query then falls back to the raw
text). -/
theorem c6_counterexample :
    pyJsonLoads (String.mk (lbrace :: ("\"mode\": \"IR\"".data ++ [rbrace])))
      = some (Json.obj [("mode", Json.str "IR")])
    ∧ extract_json (String.mk ((lbrace :: "oops and ".data)
        ++ (lbrace :: ("\"mode\": \"IR\"".data ++ [rbrace])))) = none
    ∧ respond (String.mk ((lbrace :: "oops and ".data)
        ++ (lbrace :: ("\"mode\": \"IR\"".data ++ [rbrace]))))
      = String.mk ((lbrace :: "oops and ".data)
        ++ (lbrace :: ("\"mode\": \"IR\"".data ++ [rbrace]))) := by
  refine ⟨rfl, rfl, rfl⟩

/-- Claim C6 amended: when the model output is prose, then a braced
body that json.loads parses to the object j, then prose, and the prose
before the body contains no opening brace and the prose after it no
closing brace, extract_json returns exactly j and query returns the
serialization of j. -/
theorem c6_roundtrip_amended (pre mid post : List Char) (j : Json)
    (hpre : lbrace ∉ pre) (hpost : rbrace ∉ post)
    (hparse : pyJsonLoads (String.mk (lbrace :: (mid ++ [rbrace]))) = some j) :
    extract_json (String.mk (pre ++ (lbrace :: (mid ++ [rbrace])) ++ post)) = some j
    ∧ respond (String.mk (pre ++ (lbrace :: (mid ++ [rbrace])) ++ post)) = pyDumps j := by
  have hx : extract_json (String.mk (pre ++ (lbrace :: (mid ++ [rbrace])) ++ post)) = some j := by
    unfold extract_json
    show (match braceSpan (pre ++ (lbrace :: (mid ++ [rbrace])) ++ post) with
      | none => none
      | some span => pyJsonLoads (pyStrip (String.mk span))) = some j
    rw [braceSpan_sandwich pre mid post hpre hpost]
    show pyJsonLoads (pyStrip (String.mk (lbrace :: (mid ++ [rbrace])))) = some j
    unfold pyStrip
    rw [stripList_brace]
    exact hparse
  refine ⟨hx, ?_⟩
  unfold respond
  rw [hx]

/-- Witness for the amended C6 at the round-trip example of the
specification: prose, a fenced JSON object, prose. -/
theorem c6_roundtrip_amended_witness :
    extract_json (String.mk ("Sure! ```json ".data
        ++ (lbrace :: ("\"mode\": \"IR\", \"summary\": \"x\"".data ++ [rbrace]))
        ++ " ``` Done.".data))
      = some (Json.obj [("mode", Json.str "IR"), ("summary", Json.str "x")])
    ∧ respond (String.mk ("Sure! ```json ".data
        ++ (lbrace :: ("\"mode\": \"IR\", \"summary\": \"x\"".data ++ [rbrace]))
        ++ " ``` Done.".data))
      = pyDumps (Json.obj [("mode", Json.str "IR"), ("summary", Json.str "x")]) :=
  c6_roundtrip_amended "Sure! ```json ".data "\"mode\": \"IR\", \"summary\": \"x\"".data
    " ``` Done.".data (Json.obj [("mode", Json.str "IR"), ("summary", Json.str "x")])
    (by decide) (by decide) rfl

/-- Counterexample to claim C7 as stated: the raw-text fallback is
returned as a plain untagged string.  Here the model output contains
no brace span, so the fallback path is taken and the exact raw text is
returned, yet that text is itself a valid JSON document, so no caller
can tell this raw-shape result apart from a parsed-JSON-shape result
by inspecting the returned value: the code attaches no tag. -/
theorem c7_counterexample :
    extract_json "[1, 2]" = none
    ∧ respond "[1, 2]" = "[1, 2]"
    ∧ (pyJsonLoads "[1, 2]").isSome = true := by
  refine ⟨rfl, rfl, rfl⟩

/-- Claim C7 amended: when the raw output contains no parseable JSON
object, query returns that exact raw text unchanged, never raising;
the result is a plain string carrying no tag. -/
theorem c7_raw_fallback_amended (r : String)
    (h : extract_json r = none) : respond r = r := by
  unfold respond
  rw [h]

/-- Witness for the amended C7 at a plain non-JSON output. -/
theorem c7_raw_fallback_amended_witness :
    respond "no json here" = "no json here" :=
  c7_raw_fallback_amended "no json here" rfl

/-! ## Index building (source lines 43 to 70) -/

/-- The vector index, abstracted to the chunk collection it persists.
Embedding vectors are a bijective image of the chunks at the interface
of the specification, so the chunk list is the observable content. -/
structure Index where
  chunks : List String
deriving DecidableEq

/-- Failures of the engine surfaced to the caller. -/
inductive RagError where
  | fileNotFound : RagError
  | indexNotFound : RagError
deriving DecidableEq

/-- Modelled from the spec: the text splitter
(RecursiveCharacterTextSplitter with chunk size 800 and overlap 200)
is external langchain code not in this repository; section 3 of the
specification describes chunking as a fixed-size sliding window of 800
characters with 200 overlap, so the window advances by 600. -/
def slideWindow (cs : List Char) : List (List Char) :=
  if _h : cs.length ≤ 800 then [cs]
  else cs.take 800 :: slideWindow (cs.drop 600)
termination_by cs.length
decreasing_by
  simp only [List.length_drop]
  omega

/-- Embedding of splitter.split_documents: chunk every document and
concatenate the chunk lists in document order. -/
def split_documents (docs : List String) : List String :=
  docs.flatMap (fun d => (slideWindow d.data).map String.mk)

/-- Embedding of ThreatRAG.build_index (source lines 43 to 70).
The directory listing is none when the corpus directory is missing, in
which case the os.listdir call raises before the store is touched.
Otherwise every file whose name ends in .txt is loaded, the documents
are chunked, and the chunks become the new index.  That the
Chroma.from_documents plus persist step replaces the prior store at
the location is Modelled from the spec: sections 3 and 4.3 state that
a build fully replaces prior contents for the same storage location;
the store itself is external code.  The result pairs the returned
outcome with the store contents after the call. -/
def build_index (dirListing : Option (List String)) (readFile : String → String)
    (stored : Option Index) : Except RagError Index × Option Index :=
  match dirListing with
  | none => (Except.error RagError.fileNotFound, stored)
  | some files =>
    let docs := (files.filter (fun f => f.endsWith ".txt")).map readFile
    let chunks := split_documents docs
    let idx : Index := ⟨chunks⟩
    (Except.ok idx, some idx)

/-- Number of chunks in the persisted store. -/
def storedChunkCount (st : Option Index) : Nat :=
  match st with
  | none => 0
  | some i => i.chunks.length

/-- Claim C1, behavior of the code at the failing input: on an empty
corpus directory, build_index performs no emptiness check, reports
success, and persists an index over an empty chunk list, replacing the
prior index.  The error type of the engine has no no-documents
condition at all.  This contradicts the claim, which requires an
explicit no-documents failure that leaves the index unmodified. -/
theorem c1_empty_corpus_builds_empty_index (readFile : String → String) :
    build_index (some []) readFile (some ⟨["prior chunk"]⟩)
      = (Except.ok ⟨[]⟩, some ⟨[]⟩)
    ∧ (⟨["prior chunk"]⟩ : Index) ≠ (⟨[]⟩ : Index) := by
  exact ⟨rfl, by decide⟩

/-- Claim C3: building twice over the same corpus and storage path
leaves the same persisted store as building once, with the same chunk
count, not double it.  The replace semantics of the store is modelled
from the specification since the store is external. -/
theorem c3_rebuild_replaces_not_appends (dirListing : Option (List String))
    (readFile : String → String) (stored : Option Index) :
    (build_index dirListing readFile (build_index dirListing readFile stored).2).2
      = (build_index dirListing readFile stored).2
    ∧ storedChunkCount (build_index dirListing readFile
          (build_index dirListing readFile stored).2).2
      = storedChunkCount (build_index dirListing readFile stored).2 := by
  cases dirListing with
  | none => exact ⟨rfl, rfl⟩
  | some files => exact ⟨rfl, rfl⟩

/-! ## Prompt template loading (source lines 98 to 115) -/

/-- Replace spaces by underscores, as the replace call does on the
single-character pattern. -/
def replaceSpaces (s : String) : String :=
  String.mk (s.data.map (fun c => if c == ' ' then '_' else c))

/-- The resource path a mode is looked up under: prompts slash prompt
underscore, the mode lower-cased with spaces replaced by underscores,
dot txt. -/
def prompt_path (mode : String) : String :=
  "prompts/prompt_" ++ replaceSpaces (pyLower mode) ++ ".txt"

/-- The fixed generic analyst instruction returned when the template
resource is absent, copied from the source. -/
def generic_fallback : String :=
  "You are a cybersecurity analyst. Return ONLY a valid JSON object following the required schema."

/-- Embedding of ThreatRAG.load_prompt_template (source lines 98 to
115).  The prompt directory is a lookup from path to file contents;
an existing file is read and stripped, a missing one yields the
generic fallback. -/
def load_prompt_template (promptFiles : String → Option String) (mode : String) : String :=
  match promptFiles (prompt_path mode) with
  | some content => pyStrip content
  | none => generic_fallback

/-- Claim C9: the template is looked up under the key obtained by
lower-casing the mode and replacing spaces with underscores, and when
that resource does not exist the function does not fail and returns
the fixed generic analyst instruction. -/
theorem c9_template_lookup_fallback (promptFiles : String → Option String) (mode : String)
    (h : promptFiles (prompt_path mode) = none) :
    load_prompt_template promptFiles mode = generic_fallback := by
  unfold load_prompt_template
  rw [h]

/-- Witness for C9 at the two-word mode name, whose lookup key is
prompts/prompt_threat_intel.txt, with an empty prompt directory. -/
theorem c9_template_lookup_fallback_witness :
    load_prompt_template (fun _ => none) "Threat Intel" = generic_fallback :=
  c9_template_lookup_fallback (fun _ => none) "Threat Intel" rfl

/-! ## Prompt composition and the query pipeline (source lines 134 to 206) -/

/-- Embedding of the mode resolution at line 153: the Python truthiness
test makes both None and the empty string fall through to detection. -/
def resolveMode (forced : Option String) (q : String) : String :=
  match forced with
  | some m => if m = "" then detect_mode q else m
  | none => detect_mode q

/-- Text of the f-string from the start of the schema block up to the
value position of the mode field (source lines 170 to 174). -/
def schema_header : String :=
  "\n\n=== JSON Output Requirements ===\nYou MUST output a JSON object with this structure:\n\n\x7b\n  \"mode\": \""

/-- Text of the f-string after the value position of the mode field
(source lines 174 to 194). -/
def schema_tail : String :=
  "\",\n  \"events\": [\n    \x7b\n      \"description\": \"\",\n      \"severity\": \"High | Medium | Low\",\n      \"tags\": []\n    \x7d\n  ],\n  \"ioc\": [],\n  \"mitre\": [],\n  \"summary\": \"\",\n  \"severity\": \"High | Medium | Low\"\n\x7d\n\nSeverity Rules:\n- High: reverse shell, malware creation, C2 calls, privilege escalation\n- Medium: repeated failed logins, brute force, network scans\n- Low: normal / benign activity\n\nOutput JSON only. Do NOT include explanations.\n"

/-- The JSON-schema instruction block with the mode value inlined. -/
def schema_block (mode : String) : String := schema_header ++ mode ++ schema_tail

/-- Embedding of the full augmented prompt of query (source lines 161
to 194): template, retrieved-context block, user-input block, then the
schema instruction block carrying the mode. -/
def build_full_prompt (tmpl ctx q mode : String) : String :=
  "\n" ++ tmpl ++ "\n\n=== Retrieved Relevant Intelligence ===\n" ++ ctx
    ++ "\n\n=== User Input ===\n" ++ q ++ schema_block mode

/-- The prompt that query composes for a given prompt directory,
retrieved context text, user input and forced mode (source lines 152
to 194). -/
def composed_prompt (promptFiles : String → Option String) (ctx q : String)
    (forced : Option String) : String :=
  build_full_prompt (load_prompt_template promptFiles (resolveMode forced q)) ctx q
    (resolveMode forced q)

/-- Part of the schema header before the mode key, used to locate the
mode field inside the composed prompt. -/
def schema_header_lead : String :=
  "\n\n=== JSON Output Requirements ===\nYou MUST output a JSON object with this structure:\n\n\x7b\n  "

/-- Part of the schema tail after the closing quote of the mode value. -/
def schema_tail_rest : String :=
  ",\n  \"events\": [\n    \x7b\n      \"description\": \"\",\n      \"severity\": \"High | Medium | Low\",\n      \"tags\": []\n    \x7d\n  ],\n  \"ioc\": [],\n  \"mitre\": [],\n  \"summary\": \"\",\n  \"severity\": \"High | Medium | Low\"\n\x7d\n\nSeverity Rules:\n- High: reverse shell, malware creation, C2 calls, privilege escalation\n- Medium: repeated failed logins, brute force, network scans\n- Low: normal / benign activity\n\nOutput JSON only. Do NOT include explanations.\n"

/-- Claim C8: with forced mode Hybrid the Hybrid template is used no
matter what keywords occur in the input, and in general the mode used,
forced or detected, is embedded in the JSON-schema instruction block
of the composed prompt as the value of the mode field. -/
theorem c8_forced_hybrid_and_mode_threading (promptFiles : String → Option String)
    (ctx q : String) (forced : Option String) :
    occursIn ("\"mode\": \"" ++ resolveMode forced q ++ "\"")
        (composed_prompt promptFiles ctx q forced) = true
    ∧ (forced = some "Hybrid" →
        composed_prompt promptFiles ctx q forced
          = build_full_prompt (load_prompt_template promptFiles "Hybrid") ctx q "Hybrid") := by
  constructor
  · unfold occursIn
    have hdr : schema_header.data = schema_header_lead.data ++ "\"mode\": \"".data := rfl
    have tl : schema_tail.data = "\"".data ++ schema_tail_rest.data := rfl
    have hay : (composed_prompt promptFiles ctx q forced).data
        = (("\n" ++ load_prompt_template promptFiles (resolveMode forced q)
              ++ "\n\n=== Retrieved Relevant Intelligence ===\n" ++ ctx
              ++ "\n\n=== User Input ===\n" ++ q).data ++ schema_header_lead.data)
          ++ (("\"mode\": \"" ++ resolveMode forced q ++ "\"").data
              ++ schema_tail_rest.data) := by
      simp only [composed_prompt, build_full_prompt, schema_block, data_append,
        hdr, tl, List.append_assoc]
    rw [hay]
    exact listOccurs_sandwich _ _ _
  · intro hf
    have hm : resolveMode forced q = "Hybrid" := by
      rw [hf]
      simp [resolveMode]
    unfold composed_prompt
    rw [hm]

/-- Witness for C8 at an input full of keywords, an empty prompt
directory and empty context, with the mode forced to Hybrid. -/
theorem c8_forced_hybrid_and_mode_threading_witness :
    occursIn ("\"mode\": \"" ++ resolveMode (some "Hybrid") "apt malware nc -e" ++ "\"")
        (composed_prompt (fun _ => none) "" "apt malware nc -e" (some "Hybrid")) = true
    ∧ composed_prompt (fun _ => none) "" "apt malware nc -e" (some "Hybrid")
        = build_full_prompt (load_prompt_template (fun _ => none) "Hybrid") ""
            "apt malware nc -e" "Hybrid" := by
  have h := c8_forced_hybrid_and_mode_threading (fun _ => none) "" "apt malware nc -e"
    (some "Hybrid")
  exact ⟨h.1, h.2 rfl⟩

/-- Embedding of the vectorstore availability step at the start of
query (source lines 146 to 150): a previously built in-memory handle
is reused; otherwise the store is opened lazily from the storage
location.  That opening with nothing at the location surfaces an
index-not-found failure is Modelled from the spec, section 4.3: the
Chroma constructor itself is external code. -/
def ensure_vectorstore (inMemory stored : Option Index) : Except RagError Index :=
  match inMemory with
  | some vs => Except.ok vs
  | none =>
    match stored with
    | some idx => Except.ok idx
    | none => Except.error RagError.indexNotFound

/-- Embedding of ThreatRAG.query (source lines 134 to 206).  The
external collaborators are oracles: retrieve stands for the Chroma
similarity search and generate for the Ollama model call; nothing in
the claims depends on their behavior.  The pipeline order follows the
source: ensure the store, resolve the mode, load the template,
retrieve context, compose the prompt, generate, post-process. -/
def rag_query (promptFiles : String → Option String) (inMemory stored : Option Index)
    (retrieve : Index → String → Nat → List String) (generate : String → String)
    (user_query : String) (forced_mode : Option String) : Except RagError String :=
  match ensure_vectorstore inMemory stored with
  | Except.error e => Except.error e
  | Except.ok vs =>
    let mode := resolveMode forced_mode user_query
    let tmpl := load_prompt_template promptFiles mode
    let ctx := String.intercalate "\n\n" (retrieve vs user_query 5)
    let full_prompt := build_full_prompt tmpl ctx user_query mode
    let response := generate full_prompt
    Except.ok (respond response)

/-- Claim C2: a query with no index ever built in-process and nothing
at the storage location fails with the index-not-found condition.  The
result is the same for every retrieval and generation oracle, so the
failure is decided before any embedding or generation call can have an
effect. -/
theorem c2_query_unbuilt_index_fails (promptFiles : String → Option String)
    (retrieve : Index → String → Nat → List String) (generate : String → String)
    (user_query : String) (forced_mode : Option String) :
    rag_query promptFiles none none retrieve generate user_query forced_mode
      = Except.error RagError.indexNotFound := rfl
